import Mathlib

/-!
Shallow embedding of `src/gasal_py_nobatch.cpp` (GASAL2-Py): a pybind11
wrapper exposing one-pair semi-global alignment (`GasalAligner.align`)
over the GASAL2 library.  The wrapper's own code (sanitization, the
length guard, batch population, packed-byte computation, result
extraction, and the pybind11 surface) is translated from the source.
The GASAL2 library itself (`gasal_host_batch_fill`, `gasal_aln_async`,
`gasal_is_aln_async_done`, the result buffers) is not part of this
repository; those parts are modelled from the specification and carry a
`Modelled from the spec:` doc comment.  Characters are bytes (`Nat`
values 0..255), strings are `List Nat`.
-/

namespace Gasal

/-- C `std::toupper` in the default locale on an `unsigned char` value:
ASCII lowercase letters are mapped to uppercase, everything else is
unchanged (source line 59: `char u = (char)std::toupper(c);`). -/
def toupperByte (c : Nat) : Nat :=
  if 97 ≤ c ∧ c ≤ 122 then c - 32 else c

/-- One character of the `sanitize` lambda of `GasalAligner::align`
(source lines 56-63): upper-case the byte, keep it if it is one of
A (65), C (67), G (71), T (84), N (78), otherwise push N. -/
def sanitizeChar (c : Nat) : Nat :=
  let u := toupperByte c
  if u = 65 ∨ u = 67 ∨ u = 71 ∨ u = 84 ∨ u = 78 then u else 78

/-- The `sanitize` lambda of `GasalAligner::align` (source lines 56-63):
a loop pushing `sanitizeChar` of each input byte, i.e. a per-character map. -/
def sanitize (x : List Nat) : List Nat := x.map sanitizeChar

/-- The sanitization map as the spec words it: every character is
upper-cased; any character whose upper-cased form is not in the set
A, C, G, T, N is replaced by N.  Kept separate from `sanitizeChar` so
the spec's wording can be compared against the source's lambda. -/
def specSanitizeChar (c : Nat) : Nat :=
  if toupperByte c ∈ [65, 67, 71, 84, 78] then toupperByte c else 78

/-- GASAL2 algorithm selector (the wrapper uses `SEMI_GLOBAL`). -/
inductive Algo
  | LOCAL
  | GLOBAL
  | SEMI_GLOBAL
  deriving DecidableEq

/-- GASAL2 data-source selector (`QUERY` / `TARGET`); the wrapper sets the
semi-global skipping (free-end) sides to `QUERY`. -/
inductive DataSource
  | NONE
  | QUERY
  | TARGET
  | BOTH
  deriving DecidableEq

/-- GASAL2 start-position / traceback selector (the wrapper uses `WITH_TB`). -/
inductive CompStart
  | WITHOUT_START
  | WITH_START
  | WITH_TB
  deriving DecidableEq

/-- The fields of the GASAL2 `Parameters` object that the wrapper writes in
its constructor (source lines 37-42); no other code touches them. -/
structure Parameters where
  algo : Algo
  start_pos : CompStart
  semiglobal_skipping_head : DataSource
  semiglobal_skipping_tail : DataSource
  deriving DecidableEq

/-- `gasal_subst_scores` as filled by the constructor (source lines 31-34).
`match` is a Lean keyword, so that field is named `matchScore`. -/
structure GasalSubstScores where
  matchScore : Int
  mismatch : Int
  gap_open : Int
  gap_extend : Int
  deriving DecidableEq

/-- Modelled from the spec: the per-slot result storage `*stor.host_res`
filled by the GASAL2 engine (not in this repository).  One slot
(`max_n_alns = 1`): score, query/target begin and end, the number of
CIGAR operation bytes, and the raw CIGAR byte buffer that the wrapper
slices at the slot's query offset (source lines 97-109). -/
structure HostRes where
  aln_score : Int
  query_batch_start : Int
  query_batch_end : Int
  target_batch_start : Int
  target_batch_end : Int
  n_cigar_ops : Nat
  cigar : List Nat
  deriving DecidableEq

/-- The fields of `gasal_gpu_storage_t` (slot 0 of the storage vector) that
the wrapper reads or writes (source lines 70-109).  The offset, length and
op arrays have one element (`max_n_alns = 1`), so they are scalars here. -/
structure GpuStorage where
  current_n_alns : Nat
  host_query_batch : List Nat
  host_target_batch : List Nat
  host_query_batch_offsets : Nat
  host_target_batch_offsets : Nat
  host_query_batch_lens : Nat
  host_target_batch_lens : Nat
  host_query_op : Nat
  host_target_op : Nat
  host_res : HostRes
  deriving DecidableEq

/-- Modelled from the spec: what the engine reads from a submitted batch.
Per the spec's BatchStorage/AlignmentEngine contract, each request is
addressed only through its recorded (offset, length) pair into the shared
buffers, so the engine's input is `current_n_alns`, the slot's addressed
query and target byte regions, and the packed byte counts passed to
`gasal_aln_async`. -/
structure SubmittedBatch where
  n_alns : Nat
  query_seq : List Nat
  target_seq : List Nat
  query_bytes : Nat
  target_bytes : Nat
  deriving DecidableEq

/-- Writes `data` into `buf` starting at byte offset `idx`, extending the
buffer when needed; bytes of `buf` before `idx` and after
`idx + data.length` are untouched. -/
def writeAt (buf : List Nat) (idx : Nat) (data : List Nat) : List Nat :=
  buf.take idx ++ List.replicate (idx - buf.length) 0 ++ data ++
    buf.drop (idx + data.length)

/-- Modelled from the spec: `gasal_host_batch_fill` (GASAL2 library, not in
this repository).  Per the spec's BatchStorage contract it copies the
sequence bytes into the shared host batch buffer at the given offset and
the slot records that offset together with the length; the returned value
is the offset at which the data was placed (the wrapper stores it into
`host_query_batch_offsets[0]` / `host_target_batch_offsets[0]`,
source lines 74-77). -/
def gasal_host_batch_fill (buf : List Nat) (idx : Nat) (data : List Nat) :
    List Nat × Nat :=
  (writeAt buf idx data, idx)

/-- The narrowing conversion `(int)n` of a `size_t` value `n` to a 32-bit
`int` (source line 67 compares `(int)q.size() > max_q_`): the value is
reduced modulo 2^32 and values at or above 2^31 wrap to negatives
(two's complement, as every mainstream compiler does). -/
def int32_cast (n : Nat) : Int :=
  if n % 4294967296 < 2147483648 then ((n % 4294967296 : Nat) : Int)
  else ((n % 4294967296 : Nat) : Int) - 4294967296

/-- The `packed_bytes_rounded` lambda of `GasalAligner::align` (source
lines 86-90): `uint32_t bytes = (L + 3u) / 4u;` then
`((bytes + 7u) / 8u) * 8u`, on `uint32_t` arithmetic (the addition `L + 3u`
wraps modulo 2^32). -/
def packed_bytes_rounded (L : Nat) : Nat :=
  let bytes := ((L % 4294967296 + 3) % 4294967296) / 4
  ((bytes + 7) / 8) * 8

/-- The spec's ceiling division `ceil(a/b)` for positive `b`. -/
def ceil_div (a b : Nat) : Nat := (a + b - 1) / b

/-- The spec's `round_up_to_8`: round up to the next multiple of 8. -/
def round_up_to_8 (n : Nat) : Nat := ceil_div n 8 * 8

/-- The error surfaced by the length guard (source lines 67-68 throw
`std::runtime_error`; the spec names it `LengthExceeded`). -/
inductive AlignError
  | LengthExceeded
  deriving DecidableEq

/-- The `PAlign` result struct returned by `align` (source lines 19-24).
Its `cigar` field is, as in the source, a vector of raw GASAL2 CIGAR
bytes (source comment on line 23). -/
structure PAlign where
  score : Int
  q_beg : Int
  q_end : Int
  s_beg : Int
  s_end : Int
  cigar : List Nat
  deriving DecidableEq

/-- Observable steps of one `align` call, at the granularity the spec
talks about: sanitize, pack a side into the batch, submit `n` alignments,
wait for completion, extract the result. -/
inductive Ev
  | EvSanitize
  | EvPack (src : DataSource)
  | EvSubmit (n : Nat)
  | EvWait
  | EvExtract
  deriving DecidableEq

/-- The whole `GasalAligner` object: scoring scores copied at construction
(source lines 31-35), the `Parameters` written at construction (source
lines 37-42), the storage vector's single stream, and the configured
maxima `max_q_` / `max_t_`. -/
structure GasalAligner where
  subst : GasalSubstScores
  args : Parameters
  stor : GpuStorage
  max_q : Int
  max_t : Int
  deriving DecidableEq

/-- Default of the `max_q` constructor argument (source lines 29 and 134). -/
def default_max_q : Int := 2048

/-- Default of the `max_t` constructor argument (source lines 29 and 134). -/
def default_max_t : Int := 8192

/-- Freshly initialized result storage (contents before the first run are
never read by the wrapper; zeros stand for the unspecified initial bytes). -/
def initHostRes : HostRes :=
  { aln_score := 0, query_batch_start := 0, query_batch_end := 0
  , target_batch_start := 0, target_batch_end := 0
  , n_cigar_ops := 0, cigar := [] }

/-- Storage as set up by `gasal_init_streams` (source lines 44-45): empty
buffers, zero counters. -/
def initStorage : GpuStorage :=
  { current_n_alns := 0
  , host_query_batch := [], host_target_batch := []
  , host_query_batch_offsets := 0, host_target_batch_offsets := 0
  , host_query_batch_lens := 0, host_target_batch_lens := 0
  , host_query_op := 0, host_target_op := 0
  , host_res := initHostRes }

/-- The `GasalAligner` constructor (source lines 28-46): copies the four
scores, sets `algo = SEMI_GLOBAL`, `start_pos = WITH_TB`,
`semiglobal_skipping_head = QUERY`, `semiglobal_skipping_tail = QUERY`,
and initializes one stream with the given maxima. -/
def mkGasalAligner (matchScore mismatch gap_open gap_extend max_q max_t : Int) :
    GasalAligner :=
  { subst := { matchScore := matchScore, mismatch := mismatch
             , gap_open := gap_open, gap_extend := gap_extend }
  , args := { algo := Algo.SEMI_GLOBAL, start_pos := CompStart.WITH_TB
            , semiglobal_skipping_head := DataSource.QUERY
            , semiglobal_skipping_tail := DataSource.QUERY }
  , stor := initStorage
  , max_q := max_q, max_t := max_t }

/-- Modelled from the spec: the batch view the engine computes from, for
the single-slot batch `align` submits — one request whose query and target
are the slot's addressed regions of the shared buffers, with the packed
byte counts passed to `gasal_aln_async`. -/
def submittedView (stor : GpuStorage) (qb tb : Nat) : SubmittedBatch :=
  { n_alns := stor.current_n_alns
  , query_seq :=
      (stor.host_query_batch.drop stor.host_query_batch_offsets).take
        stor.host_query_batch_lens
  , target_seq :=
      (stor.host_target_batch.drop stor.host_target_batch_offsets).take
        stor.host_target_batch_lens
  , query_bytes := qb, target_bytes := tb }

/-- The single-slot batch that `align q_in s_in` submits, expressed as a
function of the call's inputs alone. -/
def singleSlotBatch (q_in s_in : List Nat) : SubmittedBatch :=
  { n_alns := 1
  , query_seq := sanitize q_in
  , target_seq := sanitize s_in
  , query_bytes := packed_bytes_rounded (sanitize q_in).length
  , target_bytes := packed_bytes_rounded (sanitize s_in).length }

/-- `GasalAligner::align` (source lines 54-112), with the GASAL2 engine
abstracted as `backend` (modelled from the spec as a function of the
scores, the parameters and the submitted batch).  Returns the aligner
after the call, the thrown error or the `PAlign` result, and the trace of
performed steps.  Step by step, as in the source: sanitize both inputs
(lines 64-65); length guard and throw (lines 67-68), where the sizes are
narrowed to 32-bit `int` before the comparison (`(int)q.size() > max_q_`,
modelled by `int32_cast`); reset
`current_n_alns` to 0 (line 71); batch-fill both sides, record offsets
and true lengths (lines 74-79); set `current_n_alns` to 1 (line 80);
`gasal_op_fill` for both sides (lines 82-83); packed byte counts
(lines 91-92); `gasal_aln_async` submit and the completion wait loop
(lines 94-95); extract score, boundaries and the raw CIGAR byte slice
`R.cigar + c0 .. + n` (lines 97-111). -/
def GasalAligner.align (a : GasalAligner)
    (backend : GasalSubstScores → Parameters → SubmittedBatch → HostRes)
    (q_in s_in : List Nat) :
    GasalAligner × Except AlignError PAlign × List Ev :=
  let q := sanitize q_in
  let s := sanitize s_in
  if int32_cast q.length > a.max_q ∨ int32_cast s.length > a.max_t then
    (a, Except.error AlignError.LengthExceeded, [Ev.EvSanitize])
  else
    let st0 := { a.stor with current_n_alns := 0 }
    let fq := gasal_host_batch_fill st0.host_query_batch 0 q
    let ft := gasal_host_batch_fill st0.host_target_batch 0 s
    let st1 := { st0 with
        host_query_batch := fq.1, host_target_batch := ft.1
      , host_query_batch_offsets := fq.2, host_target_batch_offsets := ft.2
      , host_query_batch_lens := q.length, host_target_batch_lens := s.length }
    let st2 := { st1 with current_n_alns := 1 }
    let st3 := { st2 with host_query_op := 0, host_target_op := 0 }
    let q_bytes := packed_bytes_rounded st3.host_query_batch_lens
    let t_bytes := packed_bytes_rounded st3.host_target_batch_lens
    let R := backend a.subst a.args (submittedView st3 q_bytes t_bytes)
    let st4 := { st3 with host_res := R }
    let c0 := st4.host_query_batch_offsets
    let n := R.n_cigar_ops
    let res : PAlign :=
      { score := R.aln_score
      , q_beg := R.query_batch_start, q_end := R.query_batch_end
      , s_beg := R.target_batch_start, s_end := R.target_batch_end
      , cigar := (R.cigar.drop c0).take n }
    ({ a with stor := st4 }, Except.ok res,
     [Ev.EvSanitize, Ev.EvPack DataSource.QUERY, Ev.EvPack DataSource.TARGET,
      Ev.EvSubmit 1, Ev.EvWait, Ev.EvExtract])

/-- The `PAlign` fields the pybind11 module `gasalwrap` exposes read-only
(source lines 122-128), in source order; `cigar` is among them. -/
def pybind_PAlign_readonly_fields : List String :=
  ["score", "q_beg", "q_end", "s_beg", "s_end", "cigar"]

/-! ## Helper lemmas -/

theorem sanitizeChar_eq_spec (c : Nat) : sanitizeChar c = specSanitizeChar c := by
  simp [sanitizeChar, specSanitizeChar]

theorem sanitize_length (x : List Nat) : (sanitize x).length = x.length := by
  simp [sanitize]

theorem sanitizeChar_mem (c : Nat) :
    sanitizeChar c = 65 ∨ sanitizeChar c = 67 ∨ sanitizeChar c = 71 ∨
      sanitizeChar c = 84 ∨ sanitizeChar c = 78 := by
  simp only [sanitizeChar]
  split_ifs with h
  · exact h
  · simp

theorem sanitizeChar_fix (c : Nat)
    (h : c = 65 ∨ c = 67 ∨ c = 71 ∨ c = 84 ∨ c = 78) :
    sanitizeChar c = c := by
  rcases h with h | h | h | h | h <;> subst h <;> rfl

theorem sanitize_idem (x : List Nat) : sanitize (sanitize x) = sanitize x := by
  induction x with
  | nil => rfl
  | cons c t ih =>
      simp only [sanitize, List.map_cons, List.map_map] at ih ⊢
      rw [sanitizeChar_fix _ (sanitizeChar_mem c)]
      exact congrArg _ ih

theorem writeAt_zero (buf data : List Nat) :
    writeAt buf 0 data = data ++ buf.drop data.length := by
  simp [writeAt]

theorem take_writeAt_zero (buf data : List Nat) :
    (writeAt buf 0 data).take data.length = data := by
  rw [writeAt_zero]
  exact List.take_left _ _

/-- If a length is at most a bound, so is its 32-bit narrowing: below 2^31
the cast is the identity, and at or above 2^31 (hence the bound is at
least 2^31) the cast is negative. -/
theorem int32_cast_le {n : Nat} {m : Int} (h : (n : Int) ≤ m) :
    int32_cast n ≤ m := by
  unfold int32_cast
  split_ifs <;> omega

/-- Below 2^31 the 32-bit narrowing is the identity. -/
theorem int32_cast_small {n : Nat} (h : n < 2147483648) :
    int32_cast n = (n : Int) := by
  unfold int32_cast
  split_ifs <;> omega

/-- Closed form of `GasalAligner.align` on the success path: the batch slot
is fully overwritten (offsets 0, the sanitized inputs and their lengths),
the submitted batch is `singleSlotBatch q s`, and the result is the
extraction of the backend's answer on it. -/
theorem align_spec (a : GasalAligner)
    (backend : GasalSubstScores → Parameters → SubmittedBatch → HostRes)
    (q s : List Nat)
    (hq : int32_cast (sanitize q).length ≤ a.max_q)
    (hs : int32_cast (sanitize s).length ≤ a.max_t) :
    a.align backend q s =
      ({ a with stor :=
          { current_n_alns := 1
          , host_query_batch := writeAt a.stor.host_query_batch 0 (sanitize q)
          , host_target_batch := writeAt a.stor.host_target_batch 0 (sanitize s)
          , host_query_batch_offsets := 0, host_target_batch_offsets := 0
          , host_query_batch_lens := (sanitize q).length
          , host_target_batch_lens := (sanitize s).length
          , host_query_op := 0, host_target_op := 0
          , host_res := backend a.subst a.args (singleSlotBatch q s) } },
       Except.ok
         { score := (backend a.subst a.args (singleSlotBatch q s)).aln_score
         , q_beg := (backend a.subst a.args (singleSlotBatch q s)).query_batch_start
         , q_end := (backend a.subst a.args (singleSlotBatch q s)).query_batch_end
         , s_beg := (backend a.subst a.args (singleSlotBatch q s)).target_batch_start
         , s_end := (backend a.subst a.args (singleSlotBatch q s)).target_batch_end
         , cigar := ((backend a.subst a.args (singleSlotBatch q s)).cigar.drop 0).take
             (backend a.subst a.args (singleSlotBatch q s)).n_cigar_ops },
       [Ev.EvSanitize, Ev.EvPack DataSource.QUERY, Ev.EvPack DataSource.TARGET,
        Ev.EvSubmit 1, Ev.EvWait, Ev.EvExtract]) := by
  have hcond : ¬(int32_cast (sanitize q).length > a.max_q ∨
      int32_cast (sanitize s).length > a.max_t) := by
    push_neg
    exact ⟨hq, hs⟩
  simp only [GasalAligner.align, if_neg hcond, gasal_host_batch_fill,
    submittedView, singleSlotBatch, List.drop_zero, take_writeAt_zero]

/-- Closed form of `GasalAligner.align` on the throw path (source lines
67-68): the aligner is untouched and only the sanitization has happened —
no packing, no submission. -/
theorem align_throw (a : GasalAligner)
    (backend : GasalSubstScores → Parameters → SubmittedBatch → HostRes)
    (q s : List Nat)
    (h : int32_cast (sanitize q).length > a.max_q ∨
      int32_cast (sanitize s).length > a.max_t) :
    a.align backend q s =
      (a, Except.error AlignError.LengthExceeded, [Ev.EvSanitize]) := by
  simp only [GasalAligner.align, if_pos h]

/-- An `align` call never changes the configuration part of the aligner:
scores, parameters and maxima are as at construction. -/
theorem align_preserves_cfg (a : GasalAligner)
    (backend : GasalSubstScores → Parameters → SubmittedBatch → HostRes)
    (q s : List Nat) :
    (a.align backend q s).1.subst = a.subst
    ∧ (a.align backend q s).1.args = a.args
    ∧ (a.align backend q s).1.max_q = a.max_q
    ∧ (a.align backend q s).1.max_t = a.max_t := by
  by_cases h : (int32_cast (sanitize q).length > a.max_q ∨
      int32_cast (sanitize s).length > a.max_t)
  · rw [align_throw a backend q s h]
    exact ⟨rfl, rfl, rfl, rfl⟩
  · push_neg at h
    rw [align_spec a backend q s h.1 h.2]
    exact ⟨rfl, rfl, rfl, rfl⟩

/-- The outcome of `align` depends only on the aligner's configuration
(scores, parameters, maxima) and the call's inputs, never on the storage
left by earlier calls. -/
theorem align_result_only_cfg (a a' : GasalAligner)
    (backend : GasalSubstScores → Parameters → SubmittedBatch → HostRes)
    (q s : List Nat)
    (hmq : a'.max_q = a.max_q) (hmt : a'.max_t = a.max_t)
    (hsub : a'.subst = a.subst) (hargs : a'.args = a.args) :
    (a'.align backend q s).2.1 = (a.align backend q s).2.1 := by
  by_cases h : (int32_cast (sanitize q).length > a.max_q ∨
      int32_cast (sanitize s).length > a.max_t)
  · rw [align_throw a backend q s h,
      align_throw a' backend q s (by rw [hmq, hmt]; exact h)]
  · push_neg at h
    rw [align_spec a backend q s h.1 h.2,
      align_spec a' backend q s (by rw [hmq]; exact h.1) (by rw [hmt]; exact h.2),
      hsub, hargs]

/-! ## Concrete instances used by witnesses and the counterexample -/

/-- A concrete aligner: scores (2, -1, -2, -1) and the default maxima. -/
def cexAligner : GasalAligner := mkGasalAligner 2 (-1) (-2) (-1) 2048 8192

/-- The same configuration as `cexAligner` but with leftover bytes in the
query buffer, as after an earlier call. -/
def cexAligner2 : GasalAligner :=
  { cexAligner with stor :=
      { cexAligner.stor with host_query_batch := [1, 2, 3] } }

/-- A concrete backend: a fixed engine answer whose raw CIGAR buffer is
the three bytes 13, 7, 42, of which 2 are CIGAR operation bytes. -/
def cexBackend : GasalSubstScores → Parameters → SubmittedBatch → HostRes :=
  fun _ _ _ =>
    { aln_score := 10, query_batch_start := 0, query_batch_end := 2
    , target_batch_start := 0, target_batch_end := 2
    , n_cigar_ops := 2, cigar := [13, 7, 42] }

/-- Concrete query bytes: "AC". -/
def cexQ : List Nat := [65, 67]

/-- Concrete target bytes: "acg" (lower case, sanitized to "ACG"). -/
def cexS : List Nat := [97, 99, 103]

/-! ## Claim theorems -/

/-- C2: for every input string (the empty string included), sanitization
maps each character to its upper-cased form when that form is one of
A, C, G, T, N and to N otherwise (the spec-side map `specSanitizeChar`),
and — being a total function returning a string of the same length — it
never fails on any input. -/
theorem sanitize_maps_each_char (x : List Nat) :
    sanitize x = x.map specSanitizeChar ∧ (sanitize x).length = x.length := by
  constructor
  · rw [sanitize, funext sanitizeChar_eq_spec]
  · exact sanitize_length x

/-- C9: sanitization is length-preserving and idempotent, so the
`LengthExceeded` guard evaluated on the sanitized strings (as the source
does) accepts and rejects exactly the same inputs as the same guard on
the raw input strings. -/
theorem sanitize_length_idem_guard (q s : List Nat) (mq mt : Int) :
    (sanitize q).length = q.length
    ∧ sanitize (sanitize q) = sanitize q
    ∧ ((((sanitize q).length : Int) > mq ∨ ((sanitize s).length : Int) > mt)
        ↔ (((q.length : Int) > mq) ∨ ((s.length : Int) > mt))) := by
  refine ⟨sanitize_length q, sanitize_idem q, ?_⟩
  rw [sanitize_length q, sanitize_length s]

/-- C3 counterexample: at the reachable length L = 2^32 - 1 (a string of
that size passes the wrapped guard, since `(int)(2^32 - 1) = -1`, and is
stored as `host_query_batch_lens[0] = 2^32 - 1`), the `uint32` addition
`L + 3u` wraps to 2, so the lambda computes 0 packed bytes while
`round_up_to_8 (ceil(L/4))` is 2^30 — the claimed equality fails. -/
theorem packed_bytes_rounded_wraps_cex :
    int32_cast 4294967295 ≤ 2048
    ∧ packed_bytes_rounded 4294967295 = 0
    ∧ round_up_to_8 (ceil_div 4294967295 4) = 1073741824
    ∧ packed_bytes_rounded 4294967295 ≠ round_up_to_8 (ceil_div 4294967295 4) := by
  refine ⟨by decide, rfl, rfl, by decide⟩

/-- C3 (amended): for every logical sequence length `L` whose `uint32`
addition `L + 3u` does not wrap, i.e. `L + 3 < 2^32`, the packed byte
count computed by `packed_bytes_rounded` equals
`round_up_to_8 (ceil(L/4))`; for the larger lengths — reachable because
the narrowed `(int)` guard wraps and accepts them — the addition wraps
and the computed count falls short (see the counterexample at
`L = 2^32 - 1`). -/
theorem packed_bytes_rounded_spec (L : Nat) (h : L + 3 < 4294967296) :
    packed_bytes_rounded L = round_up_to_8 (ceil_div L 4) := by
  simp only [packed_bytes_rounded, round_up_to_8, ceil_div]
  omega

/-- Witness for C3 at the concrete length 5: ceil(5/4) = 2 bytes, rounded
up to 8. -/
theorem packed_bytes_rounded_spec_witness :
    5 + 3 < 4294967296 ∧
      packed_bytes_rounded 5 = round_up_to_8 (ceil_div 5 4) ∧
      packed_bytes_rounded 5 = 8 :=
  ⟨by norm_num, packed_bytes_rounded_spec 5 (by norm_num), by norm_num [packed_bytes_rounded]⟩

/-- C6: the constructor fixes the free-end configuration to the
semi-global variant with the query's head and the query's tail free
(`semiglobal_skipping_head = semiglobal_skipping_tail = QUERY`, algorithm
`SEMI_GLOBAL`, traceback `WITH_TB`), and no subsequent `align` call
changes the configuration of any aligner. -/
theorem aligner_config_query_free
    (matchScore mismatch gap_open gap_extend max_q max_t : Int) :
    (mkGasalAligner matchScore mismatch gap_open gap_extend max_q max_t).args
      = { algo := Algo.SEMI_GLOBAL, start_pos := CompStart.WITH_TB
        , semiglobal_skipping_head := DataSource.QUERY
        , semiglobal_skipping_tail := DataSource.QUERY }
    ∧ ∀ (a : GasalAligner)
        (backend : GasalSubstScores → Parameters → SubmittedBatch → HostRes)
        (q s : List Nat),
        ((a.align backend q s).1).args = a.args := by
  refine ⟨rfl, ?_⟩
  intro a backend q s
  by_cases h : (int32_cast (sanitize q).length > a.max_q ∨
      int32_cast (sanitize s).length > a.max_t)
  · simp only [GasalAligner.align, if_pos h]
  · simp only [GasalAligner.align, if_neg h]

/-- C1 (code bug): the guard at source line 67 compares
`(int)q.size() > max_q_`, narrowing the size to a 32-bit `int` first.  A
query of length 2^31 narrows to -2^31, the comparison -2^31 > 2048 is
false, and `align` does NOT raise although the query is wildly longer
than the construction-default maximum `default_max_q` = 2048 — the call
proceeds all the way to packing and submission (the `EvSubmit 1` step is
performed).  The claim — raise `LengthExceeded` exactly when a raw length
exceeds its configured maximum — states the evident intent of the guard;
the narrowing cast is the slip that defeats it. -/
theorem align_guard_wraps_code_bug :
    ((List.replicate 2147483648 65).length : Int) > cexAligner.max_q
    ∧ (cexAligner.align cexBackend (List.replicate 2147483648 65) cexS).2.1
        ≠ Except.error AlignError.LengthExceeded
    ∧ Ev.EvSubmit 1 ∈
        (cexAligner.align cexBackend (List.replicate 2147483648 65) cexS).2.2
    ∧ default_max_q = 2048 ∧ default_max_t = 8192 := by
  have hq : int32_cast (sanitize (List.replicate 2147483648 65)).length
      ≤ cexAligner.max_q := by
    rw [sanitize_length, List.length_replicate]
    decide
  have hs : int32_cast (sanitize cexS).length ≤ cexAligner.max_t := by decide
  refine ⟨by rw [List.length_replicate]; decide, ?_, ?_, rfl, rfl⟩
  · rw [align_spec cexAligner cexBackend _ cexS hq hs]
    exact fun h => Except.noConfusion h
  · rw [align_spec cexAligner cexBackend _ cexS hq hs]
    simp

/-- C4 counterexample: a concrete run in which the engine's raw CIGAR
bytes (13 then 7, out of the raw buffer 13, 7, 42) appear verbatim in the
public result's `cigar` field, which the pybind11 module exposes
read-only — so the raw CIGAR byte encoding IS exposed through the public
result type, and no (operation, run_length) decoding happens, contrary to
the claim. -/
theorem align_cigar_raw_exposed_cex :
    (cexAligner.align cexBackend cexQ cexS).2.1.toOption.map PAlign.cigar
      = some [13, 7]
    ∧ (cexBackend cexAligner.subst cexAligner.args
        (singleSlotBatch cexQ cexS)).cigar = [13, 7, 42]
    ∧ "cigar" ∈ pybind_PAlign_readonly_fields := by
  refine ⟨?_, rfl, by decide⟩
  rw [align_spec cexAligner cexBackend cexQ cexS (by decide) (by decide)]
  rfl

/-- C4 (amended): the edit script `align` returns to collaborators is the
raw GASAL2 CIGAR byte sequence — the `n_cigar_ops`-byte slice of the
engine's raw cigar buffer at the slot's query offset — carried unchanged
in `PAlign.cigar`, and that raw byte field is exposed read-only by the
pybind11 module; the wrapper performs no decoding into
(operation, run_length) pairs. -/
theorem align_cigar_is_raw_bytes (a : GasalAligner)
    (backend : GasalSubstScores → Parameters → SubmittedBatch → HostRes)
    (q s : List Nat)
    (hq : (q.length : Int) ≤ a.max_q) (hs : (s.length : Int) ≤ a.max_t) :
    (a.align backend q s).2.1.toOption.map PAlign.cigar
      = some (((backend a.subst a.args (singleSlotBatch q s)).cigar.drop 0).take
          (backend a.subst a.args (singleSlotBatch q s)).n_cigar_ops)
    ∧ "cigar" ∈ pybind_PAlign_readonly_fields := by
  refine ⟨?_, by decide⟩
  rw [align_spec a backend q s (by rw [sanitize_length]; exact int32_cast_le hq)
    (by rw [sanitize_length]; exact int32_cast_le hs)]
  rfl

/-- Witness for the amended C4 at the concrete instances. -/
theorem align_cigar_is_raw_bytes_witness :
    (cexAligner.align cexBackend cexQ cexS).2.1.toOption.map PAlign.cigar
      = some (((cexBackend cexAligner.subst cexAligner.args
          (singleSlotBatch cexQ cexS)).cigar.drop 0).take
          (cexBackend cexAligner.subst cexAligner.args
            (singleSlotBatch cexQ cexS)).n_cigar_ops)
    ∧ "cigar" ∈ pybind_PAlign_readonly_fields :=
  align_cigar_is_raw_bytes cexAligner cexBackend cexQ cexS (by decide) (by decide)

/-- C5: for every accepted (query, target) pair, `align` performs exactly,
in order: sanitize, pack the query, pack the target, submit a single-slot
batch, wait for completion, extract — and the returned value is the
extraction (score, query and target begin and end, edit script bytes) of
the backend's answer for the single slot `singleSlotBatch q s`. -/
theorem align_steps_in_order (a : GasalAligner)
    (backend : GasalSubstScores → Parameters → SubmittedBatch → HostRes)
    (q s : List Nat)
    (hq : (q.length : Int) ≤ a.max_q) (hs : (s.length : Int) ≤ a.max_t) :
    (a.align backend q s).2.2
      = [Ev.EvSanitize, Ev.EvPack DataSource.QUERY, Ev.EvPack DataSource.TARGET,
         Ev.EvSubmit 1, Ev.EvWait, Ev.EvExtract]
    ∧ (a.align backend q s).2.1
      = Except.ok
          { score := (backend a.subst a.args (singleSlotBatch q s)).aln_score
          , q_beg := (backend a.subst a.args (singleSlotBatch q s)).query_batch_start
          , q_end := (backend a.subst a.args (singleSlotBatch q s)).query_batch_end
          , s_beg := (backend a.subst a.args (singleSlotBatch q s)).target_batch_start
          , s_end := (backend a.subst a.args (singleSlotBatch q s)).target_batch_end
          , cigar := ((backend a.subst a.args (singleSlotBatch q s)).cigar.drop 0).take
              (backend a.subst a.args (singleSlotBatch q s)).n_cigar_ops } := by
  rw [align_spec a backend q s (by rw [sanitize_length]; exact int32_cast_le hq)
    (by rw [sanitize_length]; exact int32_cast_le hs)]
  exact ⟨rfl, rfl⟩

/-- Witness for C5 at the concrete instances. -/
theorem align_steps_in_order_witness :
    (cexAligner.align cexBackend cexQ cexS).2.2
      = [Ev.EvSanitize, Ev.EvPack DataSource.QUERY, Ev.EvPack DataSource.TARGET,
         Ev.EvSubmit 1, Ev.EvWait, Ev.EvExtract] :=
  (align_steps_in_order cexAligner cexBackend cexQ cexS (by decide) (by decide)).1

/-- C7: with the scoring parameters, free-end parameters and maxima fixed,
`align` is deterministic — any two aligners sharing that configuration
(whatever their storage holds) give identical results on the same
(query, target) pair, and in particular re-running `align` on the aligner
returned by an earlier call (with any inputs) reproduces the identical
result: same score, same boundaries, same edit script bytes. -/
theorem align_deterministic (a a' : GasalAligner)
    (backend : GasalSubstScores → Parameters → SubmittedBatch → HostRes)
    (q s : List Nat)
    (hsub : a'.subst = a.subst) (hargs : a'.args = a.args)
    (hmq : a'.max_q = a.max_q) (hmt : a'.max_t = a.max_t) :
    (a'.align backend q s).2.1 = (a.align backend q s).2.1
    ∧ ∀ q0 s0 : List Nat,
        (((a.align backend q0 s0).1).align backend q s).2.1
          = (a.align backend q s).2.1 := by
  refine ⟨align_result_only_cfg a a' backend q s hmq hmt hsub hargs, ?_⟩
  intro q0 s0
  obtain ⟨h1, h2, h3, h4⟩ := align_preserves_cfg a backend q0 s0
  exact align_result_only_cfg a _ backend q s h3 h4 h1 h2

/-- Witness for C7: the same configuration with different leftover storage
contents gives the same result on "AC" vs "acg". -/
theorem align_deterministic_witness :
    (cexAligner2.align cexBackend cexQ cexS).2.1
      = (cexAligner.align cexBackend cexQ cexS).2.1 :=
  (align_deterministic cexAligner cexAligner2 cexBackend cexQ cexS
    rfl rfl rfl rfl).1

/-- C10: a successful `align` call fully re-initializes the single batch
slot: afterwards `current_n_alns = 1`, both slot offsets are 0, both slot
lengths are the current sanitized input lengths, the submission carried
exactly one alignment, the engine was run on `singleSlotBatch q s` — a
function of the current call's inputs alone — and the call's outcome is
independent of whatever storage an earlier call left behind. -/
theorem align_reinitializes_slot (a : GasalAligner)
    (backend : GasalSubstScores → Parameters → SubmittedBatch → HostRes)
    (q s : List Nat)
    (hq : (q.length : Int) ≤ a.max_q) (hs : (s.length : Int) ≤ a.max_t) :
    ((a.align backend q s).1).stor.current_n_alns = 1
    ∧ ((a.align backend q s).1).stor.host_query_batch_offsets = 0
    ∧ ((a.align backend q s).1).stor.host_target_batch_offsets = 0
    ∧ ((a.align backend q s).1).stor.host_query_batch_lens = (sanitize q).length
    ∧ ((a.align backend q s).1).stor.host_target_batch_lens = (sanitize s).length
    ∧ ((a.align backend q s).1).stor.host_res
        = backend a.subst a.args (singleSlotBatch q s)
    ∧ Ev.EvSubmit 1 ∈ (a.align backend q s).2.2
    ∧ ∀ a' : GasalAligner, a'.subst = a.subst → a'.args = a.args →
        a'.max_q = a.max_q → a'.max_t = a.max_t →
        (a'.align backend q s).2.1 = (a.align backend q s).2.1 := by
  rw [align_spec a backend q s (by rw [sanitize_length]; exact int32_cast_le hq)
    (by rw [sanitize_length]; exact int32_cast_le hs)]
  refine ⟨rfl, rfl, rfl, rfl, rfl, rfl, by simp, ?_⟩
  intro a' h1 h2 h3 h4
  rw [← align_spec a backend q s (by rw [sanitize_length]; exact int32_cast_le hq)
    (by rw [sanitize_length]; exact int32_cast_le hs)]
  exact align_result_only_cfg a a' backend q s h3 h4 h1 h2

/-- Witness for C10 at the concrete instances. -/
theorem align_reinitializes_slot_witness :
    ((cexAligner.align cexBackend cexQ cexS).1).stor.current_n_alns = 1
    ∧ ((cexAligner.align cexBackend cexQ cexS).1).stor.host_res
        = cexBackend cexAligner.subst cexAligner.args
            (singleSlotBatch cexQ cexS) := by
  obtain ⟨h1, _, _, _, _, h6, _, _⟩ :=
    align_reinitializes_slot cexAligner cexBackend cexQ cexS
      (by decide) (by decide)
  exact ⟨h1, h6⟩

end Gasal
